import Mathlib

/-
  Verification of the libvips ABI-compatibility shim
  (src/src-tauri/libvips_compat.c) of MogensenJesse/image-optimizer.

  The C unit defines three functions:
    void vips_target_finish(VipsTarget *target) { vips_target_end(target); }
    int  vips_rawsave_fd(VipsImage *in, int fd, ...) { return -1; }
    int  vips_cache(VipsImage *in, VipsImage **out, ...) { return -1; }

  Shallow embedding: opaque handles are addresses; the observable machine
  state (addressable memory, per-file-descriptor contents, the library's
  global state) is threaded explicitly; the external function
  vips_target_end is an arbitrary state transformer supplied by an
  environment record; calls into the external library are recorded as
  events so that "forwards the pointer unchanged" is an explicit fact.
-/

/-- Opaque handle to a native output sink (`VipsTarget *`): the shim only
ever holds its address, never its layout. Address 0 models NULL. -/
structure VipsTarget where
  addr : Nat
deriving DecidableEq, Repr

/-- Opaque handle to a native in-memory image (`VipsImage *`). Address 0
models NULL. -/
structure VipsImage where
  addr : Nat
deriving DecidableEq, Repr

/-- The NULL image handle. -/
def nullImage : VipsImage := ⟨0⟩

/-- The observable machine state a C function could touch: addressable
memory (pointer-sized slots), the data written to each file descriptor,
and the native library's global state blob (which includes its error
buffer). -/
structure ShimState where
  mem : Nat → Int
  fileData : Int → List Int
  libGlobal : Int

/-- An observable call into the external native library. The shim emits
one such event for each external function it invokes, carrying the exact
argument it passed. -/
inductive ShimEvent where
  | targetEnd (t : VipsTarget)
deriving DecidableEq, Repr

/-- The external environment the shim is linked against: the current-name
function `vips_target_end` of the newer libvips, modelled as an arbitrary
transformer of the observable state (its C return type is void). -/
structure LibEnv where
  vips_target_end : VipsTarget → ShimState → ShimState

/-- Embedding of `void vips_target_finish(VipsTarget *target)`:
its whole body is `vips_target_end(target);`.  The result is the list of
external calls made (exactly one, carrying `target` unchanged) together
with the state produced by the external function. -/
def vips_target_finish (env : LibEnv) (target : VipsTarget) (s : ShimState) :
    List ShimEvent × ShimState :=
  ([ShimEvent.targetEnd target], env.vips_target_end target s)

/-- Modelled from the spec: the comparison side of the refinement claim —
calling the current-named function `vips_target_end` directly with the
same handle, the void return value being discarded.  (The function itself
lives in the external library, outside this repository; the spec describes
the direct call as one external invocation with the given handle.) -/
def call_vips_target_end (env : LibEnv) (target : VipsTarget) (s : ShimState) :
    List ShimEvent × ShimState :=
  ([ShimEvent.targetEnd target], env.vips_target_end target s)

/-- Embedding of `int vips_rawsave_fd(VipsImage *in, int fd, ...)`:
the body is `(void)in; (void)fd; return -1;` — the arguments (including
the variadic tail, modelled as a list of uninterpreted words) are
discarded, no external call is made, the state is untouched, and the
return value is the constant -1. -/
def vips_rawsave_fd (inp : VipsImage) (fd : Int) (varargs : List Int)
    (s : ShimState) : Int × ShimState :=
  ((-1 : Int), s)

/-- Embedding of `int vips_cache(VipsImage *in, VipsImage **out, ...)`:
`out` is the address of an output-pointer slot in memory; the body is
`(void)in; (void)out; return -1;` — nothing is stored through `out`, the
state is untouched, and the return value is the constant -1. -/
def vips_cache (inp : VipsImage) (outSlot : Nat) (varargs : List Int)
    (s : ShimState) : Int × ShimState :=
  ((-1 : Int), s)

/-- A call to one of the two removed-symbol stubs, as issued by some
thread: the constructor carries the full argument tuple. -/
inductive StubCall where
  | rawsave (i : VipsImage) (fd : Int) (va : List Int)
  | cache (i : VipsImage) (outSlot : Nat) (va : List Int)
deriving DecidableEq, Repr

/-- Execute one stub call against the shared state. -/
def runStubCall : StubCall → ShimState → Int × ShimState
  | .rawsave i fd va, s => vips_rawsave_fd i fd va s
  | .cache i outSlot va, s => vips_cache i outSlot va s

/-- Execute a serialization (one interleaving order) of stub calls against
the shared state, collecting each call's return value. -/
def runSchedule : List StubCall → ShimState → List Int × ShimState
  | [], s => ([], s)
  | c :: cs, s =>
      let r := runStubCall c s
      let rest := runSchedule cs r.2
      (r.1 :: rest.1, rest.2)

/- ----------------------------------------------------------------- -/
/- Claim theorems                                                    -/
/- ----------------------------------------------------------------- -/

/-- C1: for every target handle, every environment and every state,
calling the old-named forwarder `vips_target_finish` is observably
identical to calling the current-named `vips_target_end` directly: the
same single external call with the handle passed unchanged, the same
resulting state, the void return discarded in both. -/
theorem target_finish_refines_target_end
    (env : LibEnv) (t : VipsTarget) (s : ShimState) :
    vips_target_finish env t s = call_vips_target_end env t s := rfl

/-- C2: for every argument tuple (any image handle, any file descriptor,
any variadic tail including the empty one) and every state,
`vips_rawsave_fd` returns the fixed negative sentinel -1, leaves the
whole state — memory, the data of the given file descriptor, the global
state — untouched, and its return value does not depend on any argument
or on the state. -/
theorem rawsave_fd_sentinel_no_effect
    (i i' : VipsImage) (fd fd' : Int) (va va' : List Int)
    (s s' : ShimState) :
    (vips_rawsave_fd i fd va s).1 = -1
    ∧ (vips_rawsave_fd i fd va s).1 < 0
    ∧ (vips_rawsave_fd i fd va s).2 = s
    ∧ ((vips_rawsave_fd i fd va s).2).mem = s.mem
    ∧ ((vips_rawsave_fd i fd va s).2).fileData fd = s.fileData fd
    ∧ ((vips_rawsave_fd i fd va s).2).libGlobal = s.libGlobal
    ∧ (vips_rawsave_fd i fd va s).1 = (vips_rawsave_fd i' fd' va' s').1 := by
  refine ⟨rfl, ?_, rfl, rfl, rfl, rfl, rfl⟩
  show (-1 : Int) < 0
  decide

/-- C3: for every image handle, every output-pointer slot address, every
variadic tail and every state, `vips_cache` never stores through the
output slot (the memory at that address is unchanged), returns a negative
status, and has no other effect (the whole state is unchanged). -/
theorem cache_leaves_out_slot_unwritten
    (i : VipsImage) (outSlot : Nat) (va : List Int) (s : ShimState) :
    ((vips_cache i outSlot va s).2).mem outSlot = s.mem outSlot
    ∧ (vips_cache i outSlot va s).1 < 0
    ∧ (vips_cache i outSlot va s).2 = s := by
  refine ⟨rfl, ?_, rfl⟩
  show (-1 : Int) < 0
  decide

/-- C4: every shim function treats the opaque handles as pure pass-through
or pure no-op values: the forwarder's only use of its target handle is to
pass that exact pointer, unmodified, in its single external call, and it
changes nothing beyond what that call changes; each stub's result is
independent of the image handle it receives and the stub mutates, frees
and aliases nothing (the state comes back unchanged). -/
theorem handles_pass_through_or_ignored
    (env : LibEnv) (t : VipsTarget) (i i' : VipsImage) (fd : Int)
    (va : List Int) (outSlot : Nat) (s : ShimState) :
    (vips_target_finish env t s).1 = [ShimEvent.targetEnd t]
    ∧ (vips_target_finish env t s).2 = env.vips_target_end t s
    ∧ vips_rawsave_fd i fd va s = vips_rawsave_fd i' fd va s
    ∧ vips_cache i outSlot va s = vips_cache i' outSlot va s
    ∧ (vips_rawsave_fd i fd va s).2 = s
    ∧ (vips_cache i outSlot va s).2 = s :=
  ⟨rfl, rfl, rfl, rfl, rfl, rfl⟩

/-- C5: the forwarder propagates failure of `vips_target_end` unchanged:
its resulting state is exactly the state the underlying function
produces, so under any error observation on the final state (e.g. the
library's error buffer inside the global state) the forwarder fails if
and only if the direct call fails, with the same observed error; it
neither masks errors nor introduces failure modes of its own. -/
theorem target_finish_propagates_failure
    (env : LibEnv) (t : VipsTarget) (s : ShimState)
    (isError : ShimState → Bool) :
    (isError (vips_target_finish env t s).2 = true
      ↔ isError (env.vips_target_end t s) = true)
    ∧ (vips_target_finish env t s).2 = env.vips_target_end t s :=
  ⟨Iff.rfl, rfl⟩

/-- C6: every shim function is a stateless single-step mapping from its
arguments to a forwarded call or a sentinel: no shim call leaves behind
private state that a later shim call could read — a stub called in the
state left by any previous shim-unit stub call (its own included) gives
exactly the result it gives in the original state, the forwarder (in the
same environment) is likewise unaffected by previous stub calls, and the
forwarder performs exactly its one forwarded call. -/
theorem shim_stateless_deterministic
    (env : LibEnv) (t : VipsTarget) (i i2 : VipsImage) (fd fd2 : Int)
    (va va2 : List Int) (outSlot out2 : Nat) (s : ShimState) :
    vips_rawsave_fd i fd va ((vips_rawsave_fd i2 fd2 va2 s).2)
      = vips_rawsave_fd i fd va s
    ∧ vips_rawsave_fd i fd va ((vips_cache i2 out2 va2 s).2)
      = vips_rawsave_fd i fd va s
    ∧ vips_cache i outSlot va ((vips_rawsave_fd i2 fd2 va2 s).2)
      = vips_cache i outSlot va s
    ∧ vips_cache i outSlot va ((vips_cache i2 out2 va2 s).2)
      = vips_cache i outSlot va s
    ∧ vips_target_finish env t ((vips_rawsave_fd i2 fd2 va2 s).2)
      = vips_target_finish env t s
    ∧ (vips_target_finish env t s).1 = [ShimEvent.targetEnd t] :=
  ⟨rfl, rfl, rfl, rfl, rfl, rfl⟩

/-- C7: the two removed-symbol stubs return exactly the integer -1 — one
and the same fixed sentinel — for every input. -/
theorem stubs_return_exactly_minus_one
    (i : VipsImage) (fd : Int) (va : List Int) (outSlot : Nat)
    (s : ShimState) :
    (vips_rawsave_fd i fd va s).1 = -1
    ∧ (vips_cache i outSlot va s).1 = -1 :=
  ⟨rfl, rfl⟩

/-- C8: the stubs are total and safe on every input, NULL handles, the
NULL output-slot address and the empty variadic tail included: they never
inspect an argument or read from memory (their return value is
independent of the entire state), so no error or undefined-behaviour
branch is reachable and the sentinel is still returned. -/
theorem stubs_total_null_safe
    (i : VipsImage) (fd : Int) (va : List Int) (outSlot : Nat)
    (s s' : ShimState) :
    vips_rawsave_fd nullImage fd va s = (-1, s)
    ∧ vips_cache nullImage 0 va s = (-1, s)
    ∧ vips_rawsave_fd i fd [] s = (-1, s)
    ∧ vips_cache i outSlot [] s = (-1, s)
    ∧ (vips_rawsave_fd i fd va s).1 = (vips_rawsave_fd i fd va s').1
    ∧ (vips_cache i outSlot va s).1 = (vips_cache i outSlot va s').1 :=
  ⟨rfl, rfl, rfl, rfl, rfl, rfl⟩

/-- C9: the stubs are thread-safe with no coordination because they touch
no shared state: every serialization (interleaving order) of any multiset
of concurrent stub calls returns -1 to each caller and leaves the shared
state exactly as it was, so all interleavings are observably identical;
and the forwarder's effect on the state is exactly that of
`vips_target_end`, so it is precisely as thread-safe as the function it
forwards to. -/
theorem stubs_thread_safe :
    (∀ (sched : List StubCall) (s : ShimState),
        runSchedule sched s = (sched.map (fun _ => (-1 : Int)), s))
    ∧ (∀ (env : LibEnv) (t : VipsTarget) (s : ShimState),
        (vips_target_finish env t s).2 = env.vips_target_end t s) := by
  constructor
  · intro sched
    induction sched with
    | nil => intro s; rfl
    | cons c cs ih =>
        intro s
        cases c with
        | rawsave i fd va =>
            simp [runSchedule, runStubCall, vips_rawsave_fd, ih]
        | cache i outSlot va =>
            simp [runSchedule, runStubCall, vips_cache, ih]
  · intro env t s
    rfl
